import Mathlib

/-!
Verification development for the detector orchestration core of the
`ophyd-async` repository (files `ophyd_async/core/detector.py` and
`ophyd_async/epics/areadetector/controllers/pilatus_controller.py`).

The Python code is shallowly embedded: each `async` method of
`StandardDetector` becomes a Lean function that, given an environment
describing the outcome of every awaited collaborator call, returns the
ordered trace of collaborator calls it performed together with its result
(`Except` models a raised exception).  `asyncio.gather` batches become a
single `Event.gather` trace element whose members run concurrently, and
which precedes every later trace element.  Python `float` literals are
modelled as rationals, `dict` as an insertion-ordered association list
with overwrite-on-duplicate-key, and `enum.Enum` by the CPython class
construction that turns duplicate-valued names into aliases of the first
member with that value.
-/

/-- A CPython `enum.Enum` member.  CPython interns one member object per
distinct value; a class-body name whose value equals an earlier member's
value is bound to that earlier (canonical) member, so member equality is
equality of the canonical name/value pair. -/
structure PyEnumMember (V : Type) where
  canonicalName : String
  value : V
deriving DecidableEq, Repr

/-- CPython enum class construction: walk the class body's `(name, value)`
pairs in definition order; a name whose value equals an already-created
member's value becomes an alias of that member, otherwise it creates a new
member.  Returns the canonical member list (what `list(Enum)` iterates) and
the full name-to-member map (`_member_map_`). -/
def pyEnumBuild {V : Type} [DecidableEq V] (defs : List (String × V)) :
    List (PyEnumMember V) × List (String × PyEnumMember V) :=
  defs.foldl
    (fun acc nv =>
      match acc.1.find? (fun m => m.value = nv.2) with
      | some m => (acc.1, acc.2 ++ [(nv.1, m)])
      | none => (acc.1 ++ [⟨nv.1, nv.2⟩], acc.2 ++ [(nv.1, ⟨nv.1, nv.2⟩)]))
    ([], [])

/-- Python `dict` insertion with overwrite semantics: writing an existing
key replaces its value in place, a fresh key is appended. -/
def pyDictInsert {K V : Type} [DecidableEq K] (d : List (K × V)) (k : K) (v : V) :
    List (K × V) :=
  if d.any (fun kv => kv.1 = k) then
    d.map (fun kv => if kv.1 = k then (k, v) else kv)
  else
    d ++ [(k, v)]

/-- Python `dict` subscription `d[k]`: `some` value, or `none` for a
`KeyError`. -/
def pyDictGet {K V : Type} [DecidableEq K] (d : List (K × V)) (k : K) : Option V :=
  (d.find? (fun kv => kv.1 = k)).map (fun kv => kv.2)

/-- The class body of `DetectorTrigger` in `core/detector.py`: four names,
each assigned the empty tuple `()` (modelled as `Unit.unit`). -/
def detectorTriggerDefs : List (String × Unit) :=
  [("internal", ()), ("edge_trigger", ()), ("constant_gate", ()),
   ("variable_gate", ())]

/-- `DetectorTrigger`'s canonical members, as produced by CPython enum
construction from its class body. -/
def DetectorTrigger.members : List (PyEnumMember Unit) :=
  (pyEnumBuild detectorTriggerDefs).1

/-- Attribute access `DetectorTrigger.<name>`: look the name up in the
constructed member map. -/
def DetectorTrigger.member (n : String) : PyEnumMember Unit :=
  (((pyEnumBuild detectorTriggerDefs).2.find? (fun p => p.1 = n)).map
    (fun p => p.2)).getD ⟨n, ()⟩

/-- `DetectorTrigger.internal`. -/
def DetectorTrigger.internal : PyEnumMember Unit :=
  DetectorTrigger.member "internal"

/-- `DetectorTrigger.edge_trigger`. -/
def DetectorTrigger.edge_trigger : PyEnumMember Unit :=
  DetectorTrigger.member "edge_trigger"

/-- `DetectorTrigger.constant_gate`. -/
def DetectorTrigger.constant_gate : PyEnumMember Unit :=
  DetectorTrigger.member "constant_gate"

/-- `DetectorTrigger.variable_gate`. -/
def DetectorTrigger.variable_gate : PyEnumMember Unit :=
  DetectorTrigger.member "variable_gate"

/-- A Python exception raised by a collaborator call (timeouts,
cancellation, or any other error, abstracted by a code). -/
inductive PyErr
  | timeout
  | cancelled
  | err (code : Nat)
deriving DecidableEq, Repr

/-- One collaborator call made by a `StandardDetector` method on its
injected `DetectorControl` / `DetectorWriter` instances. -/
inductive Call
  | writerClose
  | controlDisarm
  | writerOpen
  | getIndicesWritten
  | arm (trigger : PyEnumMember Unit) (num : Int)
  | awaitArmStatus
  | waitForIndex (index : Int)
  | collectStreamDocs (indicesWritten : Int)
deriving DecidableEq, Repr

/-- One element of a method's execution trace: a single awaited call, or an
`asyncio.gather` batch whose members run concurrently with each other but
strictly before every later trace element. -/
inductive Event
  | call (c : Call)
  | gather (cs : List Call)
deriving DecidableEq, Repr

/-- Effect of one call on the control hardware's armed flag: `arm` arms,
`disarm` disarms, writer calls leave it alone. -/
def Call.armEffect (c : Call) (armed : Bool) : Bool :=
  match c with
  | .arm _ _ => true
  | .controlDisarm => false
  | _ => armed

/-- Effect of one trace element on the armed flag. -/
def Event.armEffect (ev : Event) (armed : Bool) : Bool :=
  match ev with
  | .call c => c.armEffect armed
  | .gather cs => cs.foldl (fun a c => c.armEffect a) armed

/-- Armed flag after executing a trace from a given initial flag. -/
def armedAfter (evs : List Event) (armed : Bool) : Bool :=
  evs.foldl (fun a ev => ev.armEffect a) armed

/-- Mutable state of a `StandardDetector` instance: the cached description
map `self._describe` (field name to an abstract `Descriptor`, modelled as
`Nat`). -/
structure DetectorState where
  describeCache : List (String × Nat)
deriving DecidableEq, Repr

/-- `StandardDetector.__init__` sets `self._describe = {}`. -/
def DetectorState.init : DetectorState := ⟨[]⟩

/-- Outcomes of the collaborator calls awaited during one `stage()` run. -/
structure StageEnv where
  closeRes : Except PyErr Unit
  disarmRes : Except PyErr Unit
  openRes : Except PyErr (List (String × Nat))
deriving Repr

/-- `StandardDetector.stage`: `await asyncio.gather(self.data.close(),
self.control.disarm())`, then `self._describe = await self.data.open()`.
The gather batch propagates the failure of whichever argument fails (the
first-listed one when both do); both arguments still run as part of the
batch.  `open` is reached only if the batch succeeded, and only a
successful `open` assigns the cache. -/
def StandardDetector.stage (s : DetectorState) (env : StageEnv) :
    DetectorState × List Event × Except PyErr Unit :=
  let g : List Event := [.gather [.writerClose, .controlDisarm]]
  match env.closeRes with
  | .error e => (s, g, .error e)
  | .ok _ =>
    match env.disarmRes with
    | .error e => (s, g, .error e)
    | .ok _ =>
      match env.openRes with
      | .error e => (s, g ++ [.call .writerOpen], .error e)
      | .ok d => (⟨d⟩, g ++ [.call .writerOpen], .ok ())

/-- `StandardDetector.describe`: `return self._describe` — it returns the
cached map unconditionally and can raise no exception. -/
def StandardDetector.describe (s : DetectorState) :
    Except PyErr (List (String × Nat)) :=
  .ok s.describeCache

/-- Outcomes of the collaborator calls awaited during one `trigger()` run:
`get_indices_written`, the `arm` call itself, awaiting the returned status,
and `wait_for_index` (as a function of the requested index). -/
structure TriggerEnv where
  indicesRes : Except PyErr Int
  armRes : Except PyErr Unit
  armStatusRes : Except PyErr Unit
  waitForIndexRes : Int → Except PyErr Unit

/-- `StandardDetector.trigger`: `indices_written = await
self.data.get_indices_written()`; `written_status = await
self.control.arm(DetectorTrigger.internal, num=1)`; `await written_status`;
`await self.data.wait_for_index(indices_written + 1)`.  Each step runs only
if every earlier step succeeded; a raised exception propagates at once. -/
def StandardDetector.trigger (env : TriggerEnv) :
    List Event × Except PyErr Unit :=
  match env.indicesRes with
  | .error e => ([.call .getIndicesWritten], .error e)
  | .ok n =>
    match env.armRes with
    | .error e =>
      ([.call .getIndicesWritten, .call (.arm DetectorTrigger.internal 1)],
       .error e)
    | .ok _ =>
      match env.armStatusRes with
      | .error e =>
        ([.call .getIndicesWritten, .call (.arm DetectorTrigger.internal 1),
          .call .awaitArmStatus], .error e)
      | .ok _ =>
        match env.waitForIndexRes (n + 1) with
        | .error e =>
          ([.call .getIndicesWritten,
            .call (.arm DetectorTrigger.internal 1), .call .awaitArmStatus,
            .call (.waitForIndex (n + 1))], .error e)
        | .ok _ =>
          ([.call .getIndicesWritten,
            .call (.arm DetectorTrigger.internal 1), .call .awaitArmStatus,
            .call (.waitForIndex (n + 1))], .ok ())

/-- `StandardDetector.read`: `return {}` — no collaborator call, empty
mapping, for every detector state. -/
def StandardDetector.read (s : DetectorState) :
    List Event × Except PyErr (List (String × Nat)) :=
  ([], .ok [])

/-- A writer as `unstage()` sees it: `close` takes the writer's state to a
new state and either returns normally or raises. -/
structure WriterModel (σ : Type) where
  close : σ → σ × Except PyErr Unit

/-- `StandardDetector.unstage`: `await self.data.close()` — the one and
only collaborator call it makes. -/
def StandardDetector.unstage {σ : Type} (w : WriterModel σ) (s : σ) :
    σ × List Event × Except PyErr Unit :=
  ((w.close s).1, [.call .writerClose], (w.close s).2)

/-- `n` successive `unstage()` calls, threading the writer's state. -/
def StandardDetector.unstageIter {σ : Type} (w : WriterModel σ) :
    Nat → σ → σ
  | 0, s => s
  | n + 1, s => (StandardDetector.unstage w (StandardDetector.unstageIter w n s)).1

/-- Modelled from the spec: the `TriggerMode` enum of the Pilatus driver
lives in `epics/areadetector/drivers/pilatus_driver.py`, which is not part
of the sources; only the two members its caller `PilatusController` names,
`internal` and `ext_enable`, are modelled, as distinct members. -/
inductive TriggerMode
  | internal
  | ext_enable
deriving DecidableEq, Repr

/-- Modelled from the spec: the `ImageMode` enum of
`epics/areadetector/utils.py` is not part of the sources; only the member
`multiple`, the one `PilatusController.arm` uses, is modelled. -/
inductive ImageMode
  | multiple
deriving DecidableEq, Repr

/-- The module-level `TRIGGER_MODE` dict of `pilatus_controller.py`, built
by Python dict-literal insertion keyed on `DetectorTrigger` members:
`{internal: TriggerMode.internal, constant_gate: TriggerMode.ext_enable,
variable_gate: TriggerMode.ext_enable}`. -/
def TRIGGER_MODE : List (PyEnumMember Unit × TriggerMode) :=
  pyDictInsert
    (pyDictInsert
      (pyDictInsert [] DetectorTrigger.internal TriggerMode.internal)
      DetectorTrigger.constant_gate TriggerMode.ext_enable)
    DetectorTrigger.variable_gate TriggerMode.ext_enable

/-- One collaborator call made by `PilatusController` on its driver. -/
inductive PilatusCall
  | setTriggerMode (m : TriggerMode)
  | setNumImages (num : Int)
  | setImageMode (m : ImageMode)
  | armAndTriggerAndCheckStatus
deriving DecidableEq, Repr

/-- One element of a `PilatusController` method's trace: a single awaited
call or an `asyncio.gather` batch. -/
inductive PilatusEvent
  | call (c : PilatusCall)
  | gather (cs : List PilatusCall)
deriving DecidableEq, Repr

/-- `PilatusController.get_deadtime`: `return 0.001` — a synchronous
method whose body is a single literal return; it makes no collaborator
call (empty trace) and never awaits.  The Python float literal `0.001` is
modelled as the rational 1/1000. -/
def PilatusController.get_deadtime (exposure : Rat) : Rat × List PilatusEvent :=
  (1 / 1000, [])

/-- `PilatusController.arm`: look `TRIGGER_MODE[mode]` up (a `KeyError`,
modelled as `none`, if the member is not a key), then gather the three
driver signal writes, then call
`arm_and_trigger_detector_and_check_status_pv`. -/
def PilatusController.arm (mode : PyEnumMember Unit) (num : Int)
    (exposure : Option Rat) : Option (List PilatusEvent) :=
  match pyDictGet TRIGGER_MODE mode with
  | none => none
  | some tm =>
    some [.gather [.setTriggerMode tm, .setNumImages num,
                   .setImageMode ImageMode.multiple],
          .call .armAndTriggerAndCheckStatus]

/-- Claim C1: `trigger()` performs exactly these steps in order — read
N = `get_indices_written()`, call `control.arm(DetectorTrigger.internal,
num=1)` and await the returned status, and only after that status
completes, await `wait_for_index(N+1)`; in the trace the control-arm wait
strictly precedes the writer-index wait. -/
theorem trigger_success_trace (env : TriggerEnv) (n : Int)
    (h1 : env.indicesRes = .ok n) (h2 : env.armRes = .ok ())
    (h3 : env.armStatusRes = .ok ())
    (h4 : env.waitForIndexRes (n + 1) = .ok ()) :
    StandardDetector.trigger env =
      ([.call .getIndicesWritten,
        .call (.arm DetectorTrigger.internal 1),
        .call .awaitArmStatus,
        .call (.waitForIndex (n + 1))], .ok ()) := by
  simp [StandardDetector.trigger, h1, h2, h3, h4]

/-- Claim C1 witness: a concrete all-succeeding environment with 0 indices
written produces exactly the four-step trace ending in
`wait_for_index(1)`. -/
theorem trigger_success_trace_witness :
    StandardDetector.trigger ⟨.ok 0, .ok (), .ok (), fun _ => .ok ()⟩ =
      ([.call .getIndicesWritten,
        .call (.arm DetectorTrigger.internal 1),
        .call .awaitArmStatus,
        .call (.waitForIndex 1)], .ok ()) :=
  trigger_success_trace ⟨.ok 0, .ok (), .ok (), fun _ => .ok ()⟩ 0
    rfl rfl rfl rfl

/-- Claim C2 (code evaluation at the failing input): because every class
body name of `DetectorTrigger` carries the value `()`, CPython enum
construction makes `edge_trigger`, `constant_gate` and `variable_gate`
aliases of `internal` — the four attribute accesses are pairwise EQUAL,
and the enum has exactly one canonical member, contradicting the four
distinct documented acquisition modes. -/
theorem detectorTrigger_members_collapse :
    DetectorTrigger.edge_trigger = DetectorTrigger.internal ∧
    DetectorTrigger.constant_gate = DetectorTrigger.internal ∧
    DetectorTrigger.variable_gate = DetectorTrigger.internal ∧
    DetectorTrigger.members = [⟨"internal", ()⟩] :=
  ⟨rfl, rfl, rfl, rfl⟩

/-- Claim C3: `stage()` runs the writer's `close()` and the control's
`disarm()` as one concurrent gather batch, that batch completes before
`open()` starts (it precedes `open` in the trace), and the map returned by
`open()` is cached so that a subsequent `describe()` returns exactly that
map. -/
theorem stage_success (s : DetectorState) (env : StageEnv)
    (d : List (String × Nat)) (hc : env.closeRes = .ok ())
    (hd : env.disarmRes = .ok ()) (ho : env.openRes = .ok d) :
    StandardDetector.stage s env =
      (⟨d⟩, [.gather [.writerClose, .controlDisarm], .call .writerOpen],
       .ok ()) ∧
    StandardDetector.describe (StandardDetector.stage s env).1 = .ok d := by
  simp [StandardDetector.stage, StandardDetector.describe, hc, hd, ho]

/-- Claim C3 witness: staging a fresh detector against an environment whose
`open()` returns the one-field map `x ↦ 5` caches exactly that map. -/
theorem stage_success_witness :
    StandardDetector.stage DetectorState.init
        ⟨.ok (), .ok (), .ok [("x", 5)]⟩ =
      (⟨[("x", 5)]⟩,
       [.gather [.writerClose, .controlDisarm], .call .writerOpen],
       .ok ()) ∧
    StandardDetector.describe
        (StandardDetector.stage DetectorState.init
          ⟨.ok (), .ok (), .ok [("x", 5)]⟩).1 = .ok [("x", 5)] :=
  stage_success DetectorState.init ⟨.ok (), .ok (), .ok [("x", 5)]⟩
    [("x", 5)] rfl rfl rfl

/-- Claim C4 counterexample: on a freshly constructed detector (no
`stage()` ever run), `describe()` does NOT fail with a usage exception —
it returns a value, namely the initial empty mapping that `__init__`
stored in `self._describe`. -/
theorem describe_unstaged_returns_empty :
    StandardDetector.describe DetectorState.init = Except.ok [] := rfl

/-- Claim C4 (amended): `describe()` never raises in any state; before the
first `stage()` it returns the initial empty description map rather than a
typed usage exception. -/
theorem describe_never_raises (s : DetectorState) :
    StandardDetector.describe s = Except.ok s.describeCache := rfl

/-- Claim C5: if awaiting the arm status or the writer-index wait inside
`trigger()` raises, `trigger()` propagates exactly that failure, its trace
contains no `disarm` and stops at the failing await (no further control
operation), and the detector is left armed.  (That the caller must disarm
via a fresh `stage()` before retrying is a statement about callers, not
checked here.) -/
theorem trigger_failure_leaves_armed (env : TriggerEnv) (n : Int) (e : PyErr)
    (h1 : env.indicesRes = .ok n) (h2 : env.armRes = .ok ()) :
    (env.armStatusRes = .error e →
      StandardDetector.trigger env =
        ([.call .getIndicesWritten,
          .call (.arm DetectorTrigger.internal 1),
          .call .awaitArmStatus], .error e) ∧
      Event.call .controlDisarm ∉ (StandardDetector.trigger env).1 ∧
      armedAfter (StandardDetector.trigger env).1 false = true) ∧
    (env.armStatusRes = .ok () → env.waitForIndexRes (n + 1) = .error e →
      StandardDetector.trigger env =
        ([.call .getIndicesWritten,
          .call (.arm DetectorTrigger.internal 1),
          .call .awaitArmStatus,
          .call (.waitForIndex (n + 1))], .error e) ∧
      Event.call .controlDisarm ∉ (StandardDetector.trigger env).1 ∧
      armedAfter (StandardDetector.trigger env).1 false = true) := by
  constructor
  · intro h3
    have ht : StandardDetector.trigger env =
        ([.call .getIndicesWritten,
          .call (.arm DetectorTrigger.internal 1),
          .call .awaitArmStatus], .error e) := by
      simp [StandardDetector.trigger, h1, h2, h3]
    refine ⟨ht, ?_, ?_⟩ <;>
      simp [ht, armedAfter, Event.armEffect, Call.armEffect]
  · intro h3 h4
    have ht : StandardDetector.trigger env =
        ([.call .getIndicesWritten,
          .call (.arm DetectorTrigger.internal 1),
          .call .awaitArmStatus,
          .call (.waitForIndex (n + 1))], .error e) := by
      simp [StandardDetector.trigger, h1, h2, h3, h4]
    refine ⟨ht, ?_, ?_⟩ <;>
      simp [ht, armedAfter, Event.armEffect, Call.armEffect]

/-- Claim C5 witness: with the arm-status await timing out (and, in a
second environment, the index wait timing out after 2 frames), the
detector ends armed. -/
theorem trigger_failure_leaves_armed_witness :
    armedAfter
      (StandardDetector.trigger
        ⟨.ok 0, .ok (), .error .timeout, fun _ => .ok ()⟩).1 false = true ∧
    armedAfter
      (StandardDetector.trigger
        ⟨.ok 2, .ok (), .ok (), fun _ => .error .timeout⟩).1 false = true :=
  ⟨((trigger_failure_leaves_armed
      ⟨.ok 0, .ok (), .error .timeout, fun _ => .ok ()⟩ 0 PyErr.timeout
      rfl rfl).1 rfl).2.2,
   ((trigger_failure_leaves_armed
      ⟨.ok 2, .ok (), .ok (), fun _ => .error .timeout⟩ 2 PyErr.timeout
      rfl rfl).2 rfl rfl).2.2⟩

/-- Claim C6: if `close()` (or, `close()` succeeding, `disarm()`) raises
inside `stage()`'s gather batch, `stage()` propagates that failure, the
trace is the gather batch alone — `open()` is never invoked and nothing is
rolled back or retried — and the cached description is unchanged. -/
theorem stage_subop_failure (s : DetectorState) (env : StageEnv) (e : PyErr) :
    (env.closeRes = .error e →
      StandardDetector.stage s env =
        (s, [.gather [.writerClose, .controlDisarm]], .error e) ∧
      Event.call .writerOpen ∉ (StandardDetector.stage s env).2.1) ∧
    (env.closeRes = .ok () → env.disarmRes = .error e →
      StandardDetector.stage s env =
        (s, [.gather [.writerClose, .controlDisarm]], .error e) ∧
      Event.call .writerOpen ∉ (StandardDetector.stage s env).2.1) := by
  constructor
  · intro hc
    have ht : StandardDetector.stage s env =
        (s, [.gather [.writerClose, .controlDisarm]], .error e) := by
      simp [StandardDetector.stage, hc]
    exact ⟨ht, by simp [ht]⟩
  · intro hc hd
    have ht : StandardDetector.stage s env =
        (s, [.gather [.writerClose, .controlDisarm]], .error e) := by
      simp [StandardDetector.stage, hc, hd]
    exact ⟨ht, by simp [ht]⟩

/-- Claim C6 witness: a failing `close()` makes `stage()` propagate that
error with the gather batch as its whole trace and the initial cache
untouched. -/
theorem stage_subop_failure_witness :
    StandardDetector.stage DetectorState.init
        ⟨.error (.err 3), .ok (), .ok []⟩ =
      (DetectorState.init, [.gather [.writerClose, .controlDisarm]],
       .error (.err 3)) :=
  ((stage_subop_failure DetectorState.init
      ⟨.error (.err 3), .ok (), .ok []⟩ (.err 3)).1 rfl).1

/-- Claim C7: `read()` returns the empty mapping and performs no control
or writer operation (empty trace), in every detector state. -/
theorem read_empty_no_calls (s : DetectorState) :
    StandardDetector.read s = ([], Except.ok []) := rfl

/-- Claim C8: when the writer's `close()` is idempotent (closing a closed
writer returns the same state and raises nothing), `n+1` successive
`unstage()` calls end in the same writer state as a single call, one more
repeat succeeds with no error, and every `unstage()` call's trace is
exactly the writer `close()` call — it never touches the control actor. -/
theorem unstage_idempotent {σ : Type} (w : WriterModel σ)
    (hid : ∀ t, w.close ((w.close t).1) = ((w.close t).1, Except.ok ()))
    (n : Nat) (s : σ) :
    StandardDetector.unstageIter w (n + 1) s =
      StandardDetector.unstageIter w 1 s ∧
    (StandardDetector.unstage w (StandardDetector.unstageIter w (n + 1) s)).2 =
      ([Event.call Call.writerClose], Except.ok ()) ∧
    ∀ t : σ, (StandardDetector.unstage w t).2.1 =
      [Event.call Call.writerClose] := by
  induction n with
  | zero =>
    refine ⟨rfl, ?_, fun t => rfl⟩
    simp [StandardDetector.unstage, StandardDetector.unstageIter, hid]
  | succ k ih =>
    have h1 : StandardDetector.unstageIter w (k + 1 + 1) s =
        StandardDetector.unstageIter w 1 s := by
      show (StandardDetector.unstage w
        (StandardDetector.unstageIter w (k + 1) s)).1 = _
      rw [ih.1]
      show (w.close ((w.close s).1)).1 = (w.close s).1
      rw [hid]
    refine ⟨h1, ?_, fun t => rfl⟩
    rw [h1]
    show ([Event.call Call.writerClose], (w.close ((w.close s).1)).2) = _
    rw [hid]

/-- Claim C8 witness: for a concrete idempotent writer over `Nat` state,
three `unstage()` calls end where one does, and a repeat is error-free
with the writer-close-only trace. -/
theorem unstage_idempotent_witness :
    StandardDetector.unstageIter ⟨fun _ => ((0 : Nat), Except.ok ())⟩ 3 7 =
      StandardDetector.unstageIter ⟨fun _ => ((0 : Nat), Except.ok ())⟩ 1 7 ∧
    (StandardDetector.unstage ⟨fun _ => ((0 : Nat), Except.ok ())⟩
        (StandardDetector.unstageIter
          ⟨fun _ => ((0 : Nat), Except.ok ())⟩ 3 7)).2 =
      ([Event.call Call.writerClose], Except.ok ()) ∧
    ∀ t : Nat, (StandardDetector.unstage
        ⟨fun _ => ((0 : Nat), Except.ok ())⟩ t).2.1 =
      [Event.call Call.writerClose] :=
  unstage_idempotent ⟨fun _ => ((0 : Nat), Except.ok ())⟩ (fun _ => rfl) 2 7

/-- Claim C9: `PilatusController.get_deadtime` is pure and non-suspending:
for every exposure it returns the constant 0.001 (the rational 1/1000)
with an empty trace — no await, no state mutation — so equal arguments
trivially yield equal results. -/
theorem get_deadtime_pure (exposure : Rat) :
    PilatusController.get_deadtime exposure = (1 / 1000, []) := rfl

/-- Claim C10: the three `TRIGGER_MODE` keys are aliases of the single
`DetectorTrigger` member, so the dict collapses to one entry holding the
last-written value `TriggerMode.ext_enable`; consequently
`PilatusController.arm` sets the driver's trigger mode to `ext_enable` —
never `TriggerMode.internal` — for every `DetectorTrigger` attribute,
including `internal`. -/
theorem pilatus_arm_always_ext_enable (num : Int) (exposure : Option Rat) :
    TRIGGER_MODE = [(DetectorTrigger.internal, TriggerMode.ext_enable)] ∧
    PilatusController.arm DetectorTrigger.internal num exposure =
      some [.gather [.setTriggerMode TriggerMode.ext_enable,
                     .setNumImages num, .setImageMode ImageMode.multiple],
            .call .armAndTriggerAndCheckStatus] ∧
    PilatusController.arm DetectorTrigger.edge_trigger num exposure =
      some [.gather [.setTriggerMode TriggerMode.ext_enable,
                     .setNumImages num, .setImageMode ImageMode.multiple],
            .call .armAndTriggerAndCheckStatus] ∧
    PilatusController.arm DetectorTrigger.constant_gate num exposure =
      some [.gather [.setTriggerMode TriggerMode.ext_enable,
                     .setNumImages num, .setImageMode ImageMode.multiple],
            .call .armAndTriggerAndCheckStatus] ∧
    PilatusController.arm DetectorTrigger.variable_gate num exposure =
      some [.gather [.setTriggerMode TriggerMode.ext_enable,
                     .setNumImages num, .setImageMode ImageMode.multiple],
            .call .armAndTriggerAndCheckStatus] :=
  ⟨rfl, rfl, rfl, rfl, rfl⟩
